import Mathlib

/-!
Shallow embedding of `src/cargo/ops/cargo_rustc/context/target_info.rs`:
the toolchain target-information resolver (`TargetInfo`), its construction-time
combined/fallback probe (`TargetInfo.new`), the per-crate-type parsing helper
(`parse_crate_type`), the lazily-filled naming cache, and the file-type
planner (`TargetInfo.file_types`).

Process invocations are modelled by an oracle (`RustcProbe`) recording, for
each of the three probe modes, the captured output (or an invocation-level
failure).  Captured output is modelled as its list of text lines, matching the
`str::from_utf8(..).unwrap()` + `.lines()` decoding in the source.
-/

/-- Captured output of one toolchain invocation: stdout and stderr, each
split into lines (the source decodes the bytes as UTF-8 and iterates
`.lines()`). -/
structure ProcOutput where
  stdout : List String
  stderr : List String

/-- Modelled from the spec: `ops::Kind` (not under `src/`) — whether the probe
is for the build host or a cross-compilation target. -/
inductive Kind where
  | Host
  | Target
deriving BEq, DecidableEq

/-- Modelled from the spec: `core::TargetKind` (not under `src/`) — the kind
of the target being built.  The source only ever compares it against `Bin`
("only uplift debuginfo for binaries", excluding tests and examples). -/
inductive TargetKind where
  | Lib
  | Bin
  | Test
  | Bench
  | ExampleLib
  | ExampleBin
  | CustomBuild
deriving BEq, DecidableEq

/-- Type of each file generated by a Unit (`TargetFileType`). -/
inductive TargetFileType where
  /-- Not a special file type. -/
  | Normal
  /-- Something you can link against (e.g. a library). -/
  | Linkable
  /-- A piece of external debug information (e.g. *.dSYM and *.pdb). -/
  | DebugInfo
deriving BEq, DecidableEq, Repr

/-- One artifact file descriptor (`FileType`).  The source's `prefix` field is
renamed `pre` (`prefix` is a Lean keyword). -/
structure FileType where
  suffix : String
  pre : String
  target_file_type : TargetFileType
  should_replace_hyphens : Bool
deriving BEq, DecidableEq, Repr

/-- Modelled from the spec: `util::Cfg` (not under `src/`) — "an opaque
name/optional-value pair describing a toolchain-reported
conditional-compilation predicate". -/
structure Cfg where
  name : String
  value : Option String
deriving BEq, DecidableEq

/-- A filesystem path as the list of its pushed components:
`PathBuf::from(s)` is `[s]` and `PathBuf::push` appends one component. -/
abbrev PathBuf := List String

/-- Whether `pat` is a prefix of the second list (char-list form of Rust
`str::starts_with`). -/
def listStartsWith : List Char → List Char → Bool
  | [], _ => true
  | _ :: _, [] => false
  | p :: ps, c :: cs => p == c && listStartsWith ps cs

/-- Whether `pat` occurs as a contiguous sublist of the second argument. -/
def listContainsSub (pat : List Char) : List Char → Bool
  | [] => pat.isEmpty
  | c :: cs => listStartsWith pat (c :: cs) || listContainsSub pat cs

/-- Worker for `strSplitOn`: left-to-right scan splitting at each
non-overlapping occurrence of `pat`; `acc` holds the current piece reversed;
the fuel (instantiated to more than the list length) only makes the
recursion structural and is never exhausted. -/
def splitOnListCore (pat : List Char) : Nat → List Char → List Char → List (List Char)
  | 0, acc, rest => [acc.reverse ++ rest]
  | fuel + 1, acc, l =>
    match l with
    | [] => [acc.reverse]
    | c :: cs =>
      if listStartsWith pat l then
        acc.reverse :: splitOnListCore pat fuel [] (l.drop pat.length)
      else
        splitOnListCore pat fuel (c :: acc) cs

/-- Rust `str::split` with a string pattern, collected to a list: pieces of
`s` between non-overlapping left-to-right occurrences of `pat` (non-empty
for every use in this file). -/
def strSplitOn (s pat : String) : List String :=
  if pat.isEmpty then [s]
  else (splitOnListCore pat.data (s.data.length + 1) [] s.data).map (fun l => ⟨l⟩)

/-- Rust `str::contains` with a string pattern. -/
def strContains (s pat : String) : Bool :=
  listContainsSub pat.data s.data

/-- Rust `str::starts_with` with a string pattern. -/
def strStartsWith (s pat : String) : Bool :=
  listStartsWith pat.data s.data

/-- Rust `str::ends_with` with a string pattern. -/
def strEndsWith (s pat : String) : Bool :=
  listStartsWith pat.data.reverse s.data.reverse

/-- Rust `str::trim`: strip leading and trailing whitespace. -/
def strTrim (s : String) : String :=
  ⟨((s.data.dropWhile Char.isWhitespace).reverse.dropWhile Char.isWhitespace).reverse⟩

/-- The stderr scan of `parse_crate_type`: some stderr line contains
"unsupported crate type" or "unknown crate type" and also contains the
crate type's name. -/
def not_supported (error : List String) (crate_type : String) : Bool :=
  error.any (fun line =>
    (strContains line "unsupported crate type" || strContains line "unknown crate type")
      && strContains line crate_type)

/-- The parsing helper `parse_crate_type`: given the crate type, the stderr lines, and the
remaining stdout lines, produce the naming info (`none` = unsupported) and
the stdout lines left for the next crate type.  `.error` models `bail!`. -/
def parse_crate_type (crate_type : String) (error : List String)
    (lines : List String) :
    Except String (Option (String × String) × List String) :=
  if not_supported error crate_type then
    .ok (none, lines)
  else
    match lines with
    | [] => .error ("malformed output when learning about crate-type "
        ++ crate_type ++ " information")
    | line :: rest =>
      match strSplitOn (strTrim line) "___" with
      | p :: s :: _ => .ok (some (p, s), rest)
      | _ => .error ("output of --print=file-names has changed in "
          ++ "the compiler, cannot parse")

/-- The construction-time loop of `TargetInfo::new`: run `parse_crate_type`
for each requested crate type in order, threading the stdout line cursor,
and collect the per-type results (the source inserts them into a `HashMap`;
here an association list in request order). -/
def parseCrateTypes (types : List String) (error : List String)
    (lines : List String) :
    Except String (List (String × Option (String × String)) × List String) :=
  match types with
  | [] => .ok ([], lines)
  | t :: ts =>
    match parse_crate_type t error lines with
    | .error e => .error e
    | .ok (out, rest) =>
      match parseCrateTypes ts error rest with
      | .error e => .error e
      | .ok (m, rest2) => .ok ((t, out) :: m, rest2)

/-- The constant `KNOWN_CRATE_TYPES` from `TargetInfo::new`. -/
def KNOWN_CRATE_TYPES : List String :=
  ["bin", "rlib", "dylib", "cdylib", "staticlib", "proc-macro"]

/-- The saved `crate_type_process` as an oracle: appending
`--crate-type <ty>` and running `exec_with_output` yields this output
(`.error` = invocation failure). -/
abbrev CrateTypeProcess := String → Except Unit ProcOutput

/-- Oracle for the three probe modes of one `rustc` for one target:
the combined probe (file names + `--print=sysroot --print=cfg`), the
fallback file-names-only probe, and the focused single-crate-type probe. -/
structure RustcProbe where
  withCfgOutput : Except Unit ProcOutput
  plainOutput : Except Unit ProcOutput
  crateTypeOutput : CrateTypeProcess

/-- The `TargetInfo` state: the saved probe template, the (interior-mutable)
per-crate-type naming cache, the configuration flags and the sysroot library
directory (both `none` when the combined probe fell back). -/
structure TargetInfo where
  crate_type_process : Option CrateTypeProcess
  crate_types : List (String × Option (String × String))
  cfg : Option (List Cfg)
  sysroot_libdir : Option PathBuf

/-- The constructor `TargetInfo::new`: run the combined probe, falling back to the
file-names-only probe on invocation failure; parse one naming line per known
crate type; if the combined probe ran, read the sysroot line (deriving
`sysroot_libdir` from `kind` and, for the host, whether the host is Windows)
and parse every remaining line as a `Cfg` (any failure is fatal).
`hostWindows` models the compile-time `cfg!(windows)` of the host,
`cfgFromStr` models `Cfg::from_str` (defined outside `src/`). -/
def TargetInfo.new (rustc : RustcProbe) (kind : Kind) (target_triple : String)
    (hostWindows : Bool) (cfgFromStr : String → Except String Cfg) :
    Except String TargetInfo :=
  let probed : Bool × Except Unit ProcOutput :=
    match rustc.withCfgOutput with
    | .ok o => (true, .ok o)
    | .error _ => (false, rustc.plainOutput)
  let has_cfg_and_sysroot := probed.1
  match probed.2 with
  | .error _ =>
    .error "failed to run `rustc` to learn about target-specific information"
  | .ok output =>
    match parseCrateTypes KNOWN_CRATE_TYPES output.stderr output.stdout with
    | .error e => .error e
    | .ok (map, lines) =>
      if has_cfg_and_sysroot then
        match lines with
        | [] => .error ("output of --print=sysroot missing when learning about "
            ++ "target-specific information from rustc")
        | line :: rest =>
          let rustlib : PathBuf := [line]
          let sysroot_libdir : Option PathBuf :=
            if kind == Kind.Host then
              if hostWindows then some (rustlib ++ ["bin"])
              else some (rustlib ++ ["lib"])
            else
              some (rustlib ++ ["lib", "rustlib", target_triple, "lib"])
          match rest.mapM cfgFromStr with
          | .error e => .error e
          | .ok cfgs =>
            .ok { crate_type_process := some rustc.crateTypeOutput
                  crate_types := map
                  cfg := some cfgs
                  sysroot_libdir := sysroot_libdir }
      else
        .ok { crate_type_process := some rustc.crateTypeOutput
              crate_types := map
              cfg := none
              sysroot_libdir := none }

/-- The method `TargetInfo::discover_crate_type`: the focused probe for one crate type
(counts as one toolchain invocation), parsed with `parse_crate_type` from the
start of its own stdout. -/
def TargetInfo.discover_crate_type (process : CrateTypeProcess)
    (crate_type : String) : Except String (Option (String × String)) :=
  match process crate_type with
  | .error _ => .error ("failed to run `rustc` to learn about crate-type "
      ++ crate_type ++ " information")
  | .ok output =>
    match parse_crate_type crate_type output.stderr output.stdout with
    | .error e => .error e
    | .ok (out, _) => .ok out

/-- The cache-entry step of `TargetInfo::file_types`
(`crate_types.borrow_mut().entry(..)`): an occupied entry returns the cached
naming info; a vacant entry runs `discover_crate_type` (unwrapping
`crate_type_process`; the source panics when it is `None`) and stores the
result, including `none`.  The returned `Nat` counts toolchain invocations
issued by this call (0 or 1). -/
def TargetInfo.resolveCrateType (ti : TargetInfo) (crate_type : String) :
    Except String (Option (String × String) × TargetInfo × Nat) :=
  match List.lookup crate_type ti.crate_types with
  | some info => .ok (info, ti, 0)
  | none =>
    match ti.crate_type_process with
    | none => .error "panicked: called unwrap on a None crate_type_process"
    | some process =>
      match TargetInfo.discover_crate_type process crate_type with
      | .error e => .error e
      | .ok value =>
        .ok (value, { ti with crate_types := (crate_type, value) :: ti.crate_types }, 1)

/-- The method `TargetInfo::file_types`: resolve the crate type's naming info (possibly
issuing a focused probe), return `none` when unsupported, and otherwise build
the base descriptor followed by the platform-specific extras of
rust-lang/cargo#4500 (MSVC import library), #4535 (wasm companion binary) and
#4490/#4960 (debuginfo for binaries). -/
def TargetInfo.file_types (ti : TargetInfo) (crate_type : String)
    (file_type : TargetFileType) (kind : TargetKind) (target_triple : String) :
    Except String (Option (List FileType) × TargetInfo × Nat) :=
  match ti.resolveCrateType crate_type with
  | .error e => .error e
  | .ok (info, ti2, n) =>
    match info with
    | none => .ok (none, ti2, n)
    | some (p, s) =>
      let ret : List FileType :=
        [{ suffix := s, pre := p, target_file_type := file_type,
           should_replace_hyphens := false }]
      let ret :=
        if strEndsWith target_triple "pc-windows-msvc"
            && strEndsWith crate_type "dylib" && s == ".dll" then
          ret ++ [{ suffix := ".dll.lib", pre := p,
                    target_file_type := TargetFileType.Normal,
                    should_replace_hyphens := false }]
        else ret
      let ret :=
        if strStartsWith target_triple "wasm32-" && crate_type == "bin"
            && s == ".js" then
          ret ++ [{ suffix := ".wasm", pre := p,
                    target_file_type := TargetFileType.Normal,
                    should_replace_hyphens := true }]
        else ret
      let ret :=
        if kind == TargetKind.Bin then
          if strContains target_triple "-apple-" then
            ret ++ [{ suffix := ".dSYM", pre := p,
                      target_file_type := TargetFileType.DebugInfo,
                      should_replace_hyphens := false }]
          else if strEndsWith target_triple "-msvc" then
            ret ++ [{ suffix := ".pdb", pre := p,
                      target_file_type := TargetFileType.DebugInfo,
                      should_replace_hyphens := false }]
          else ret
        else ret
      .ok (some ret, ti2, n)

/-- The accessor `TargetInfo::cfg`. -/
def TargetInfo.cfgAccessor (ti : TargetInfo) : Option (List Cfg) :=
  ti.cfg

/-! ### Concrete fixtures used to instantiate the theorems on closed inputs -/

/-- A focused probe oracle answering only for `rlib`. -/
def probeFix : CrateTypeProcess := fun ct =>
  if ct == "rlib" then .ok ⟨["lib___.rlib"], []⟩ else .error ()

/-- A resolver state with a populated cache (including an unsupported entry
for `cdylib`) and `probeFix` as its saved probe template. -/
def tiFix : TargetInfo :=
  { crate_type_process := some probeFix
    crate_types := [("dylib", some ("", ".dll")), ("bin", some ("", ".js")),
                    ("staticlib", some ("lib", ".a")), ("cdylib", none)]
    cfg := none
    sysroot_libdir := none }

/-- The state `tiFix` after the lazy probe for `rlib` has filled the cache. -/
def tiFixAfter : TargetInfo :=
  { tiFix with crate_types := ("rlib", some ("lib", ".rlib")) :: tiFix.crate_types }

/-- A probe oracle whose combined invocation fails and whose fallback
invocation yields one naming line per known crate type. -/
def rustcFallbackFix : RustcProbe :=
  { withCfgOutput := .error ()
    plainOutput := .ok ⟨["___.bin", "lib___.rlib", "___.dll", "___.cdll",
                         "lib___.a", "lib___.so"], []⟩
    crateTypeOutput := probeFix }

/-- A probe oracle whose combined invocation succeeds, yielding the naming
lines, a sysroot line and one configuration-flag line. -/
def rustcCombinedFix : RustcProbe :=
  { withCfgOutput := .ok ⟨["___.bin", "lib___.rlib", "___.dll", "___.cdll",
                           "lib___.a", "lib___.so", "/sysroot", "unix"], []⟩
    plainOutput := .error ()
    crateTypeOutput := probeFix }

/-- A trivial configuration-flag parser for the fixtures. -/
def cfgFromStrFix : String → Except String Cfg := fun s => .ok ⟨s, none⟩

/-- The naming map parsed from the six fixture naming lines. -/
def mFix : List (String × Option (String × String)) :=
  [("bin", some ("", ".bin")), ("rlib", some ("lib", ".rlib")),
   ("dylib", some ("", ".dll")), ("cdylib", some ("", ".cdll")),
   ("staticlib", some ("lib", ".a")), ("proc-macro", some ("lib", ".so"))]

/-! ### Helper lemmas -/

/-- A cache hit: `resolveCrateType` returns the stored value, leaves the
state unchanged and issues no toolchain invocation. -/
theorem TargetInfo.resolveCrateType_cached (ti : TargetInfo) (ct : String)
    (info : Option (String × String))
    (hl : List.lookup ct ti.crate_types = some info) :
    ti.resolveCrateType ct = .ok (info, ti, 0) := by
  unfold TargetInfo.resolveCrateType
  rw [hl]

/-- After any successful `resolveCrateType`, the returned state's cache holds
the returned value under the requested crate type. -/
theorem TargetInfo.resolveCrateType_lookup (ti : TargetInfo) (ct : String)
    (info : Option (String × String)) (ti2 : TargetInfo) (n : Nat)
    (h : ti.resolveCrateType ct = .ok (info, ti2, n)) :
    List.lookup ct ti2.crate_types = some info := by
  unfold TargetInfo.resolveCrateType at h
  split at h
  · rename_i v hl
    simp only [Except.ok.injEq, Prod.mk.injEq] at h
    obtain ⟨rfl, rfl, -⟩ := h
    exact hl
  · rename_i hl
    split at h
    · exact Except.noConfusion h
    · rename_i pr hp
      split at h
      · exact Except.noConfusion h
      · rename_i value hd
        simp only [Except.ok.injEq, Prod.mk.injEq] at h
        obtain ⟨rfl, rfl, -⟩ := h
        simp [List.lookup]

/-- When stderr marks a crate type unsupported, `parse_crate_type` yields
`none` and consumes no stdout line. -/
theorem parse_crate_type_of_not_supported (K : String) (err lines : List String)
    (h : not_supported err K = true) :
    parse_crate_type K err lines = .ok (none, lines) := by
  simp [parse_crate_type, h]

/-- The keys of a successful `parseCrateTypes` run are exactly the requested
crate types, in request order. -/
theorem parseCrateTypes_keys (ts err lines : List String)
    (m : List (String × Option (String × String))) (rest : List String)
    (h : parseCrateTypes ts err lines = .ok (m, rest)) :
    m.map Prod.fst = ts := by
  induction ts generalizing lines m rest with
  | nil =>
    unfold parseCrateTypes at h
    simp only [Except.ok.injEq, Prod.mk.injEq] at h
    obtain ⟨rfl, -⟩ := h
    rfl
  | cons t ts ih =>
    unfold parseCrateTypes at h
    split at h
    · exact Except.noConfusion h
    · rename_i out rest1 h1
      split at h
      · exact Except.noConfusion h
      · rename_i m2 rest2 h2
        simp only [Except.ok.injEq, Prod.mk.injEq] at h
        obtain ⟨rfl, -⟩ := h
        simp [ih _ _ _ h2]

/-! ### Claims -/

/-- C1: for every output kind, artifact role and target triple, `file_types`
returns `none` exactly when the resolved naming info for that kind is `none`
(the toolchain does not support the kind); otherwise it returns a non-empty
list whose first element is the base descriptor carrying the resolved prefix,
the resolved suffix, the artifact role that was passed in, and
hyphen-rewrite = `false`. -/
theorem file_types_none_iff_unsupported (ti : TargetInfo) (ct : String)
    (ft : TargetFileType) (k : TargetKind) (tt : String)
    (info : Option (String × String)) (ti2 : TargetInfo) (n : Nat)
    (h : ti.resolveCrateType ct = .ok (info, ti2, n)) :
    (ti.file_types ct ft k tt = .ok (none, ti2, n) ↔ info = none) ∧
    (∀ p s, info = some (p, s) → ∃ rest,
      ti.file_types ct ft k tt =
        .ok (some ({ suffix := s, pre := p, target_file_type := ft,
                     should_replace_hyphens := false } :: rest), ti2, n)) := by
  unfold TargetInfo.file_types
  rw [h]
  cases info with
  | none =>
    exact ⟨by simp, fun p s hps => Option.noConfusion hps⟩
  | some ps =>
    obtain ⟨p, s⟩ := ps
    constructor
    · simp
    · rintro p' s' hps
      rw [Option.some.injEq, Prod.mk.injEq] at hps
      obtain ⟨rfl, rfl⟩ := hps
      dsimp only
      repeat' split
      all_goals exact ⟨_, rfl⟩

/-- Witness for C1 at a concrete unsupported kind (`cdylib` in `tiFix`). -/
theorem file_types_none_iff_unsupported_witness :
    (TargetInfo.file_types tiFix "cdylib" TargetFileType.Linkable TargetKind.Lib
        "x86_64-unknown-linux-gnu" = .ok (none, tiFix, 0) ↔
      (none : Option (String × String)) = none) ∧
    (∀ p s, (none : Option (String × String)) = some (p, s) → ∃ rest,
      TargetInfo.file_types tiFix "cdylib" TargetFileType.Linkable TargetKind.Lib
          "x86_64-unknown-linux-gnu" =
        .ok (some ({ suffix := s, pre := p,
                     target_file_type := TargetFileType.Linkable,
                     should_replace_hyphens := false } :: rest), tiFix, 0)) :=
  file_types_none_iff_unsupported tiFix "cdylib" TargetFileType.Linkable
    TargetKind.Lib "x86_64-unknown-linux-gnu" none tiFix 0 rfl

/-- C4: resolving the same kind twice on the same resolver is idempotent:
after a successful `file_types` call, repeating the call on the resulting
state issues zero further toolchain invocations and returns the identical
value and state — including when the cached value is `none`. -/
theorem file_types_idempotent (ti : TargetInfo) (ct : String)
    (ft : TargetFileType) (k : TargetKind) (tt : String)
    (r : Option (List FileType)) (ti2 : TargetInfo) (n : Nat)
    (h : ti.file_types ct ft k tt = .ok (r, ti2, n)) :
    ti2.file_types ct ft k tt = .ok (r, ti2, 0) := by
  unfold TargetInfo.file_types at h ⊢
  cases hres : ti.resolveCrateType ct with
  | error e => rw [hres] at h; exact Except.noConfusion h
  | ok t =>
    obtain ⟨info, tiR, nR⟩ := t
    rw [hres] at h
    have hl : List.lookup ct tiR.crate_types = some info :=
      TargetInfo.resolveCrateType_lookup ti ct info tiR nR hres
    cases info with
    | none =>
      dsimp only at h
      simp only [Except.ok.injEq, Prod.mk.injEq] at h
      obtain ⟨rfl, rfl, rfl⟩ := h
      rw [TargetInfo.resolveCrateType_cached tiR ct none hl]
    | some ps =>
      obtain ⟨p, s⟩ := ps
      dsimp only at h
      simp only [Except.ok.injEq, Prod.mk.injEq] at h
      obtain ⟨rfl, rfl, rfl⟩ := h
      rw [TargetInfo.resolveCrateType_cached tiR ct (some (p, s)) hl]

/-- Witness for C4: the lazy probe for `rlib` fills the cache (one
invocation), and the repeated call returns the same value with none. -/
theorem file_types_idempotent_witness :
    TargetInfo.file_types tiFixAfter "rlib" TargetFileType.Linkable
        TargetKind.Lib "t" =
      .ok (some [{ suffix := ".rlib", pre := "lib",
                   target_file_type := TargetFileType.Linkable,
                   should_replace_hyphens := false }], tiFixAfter, 0) :=
  file_types_idempotent tiFix "rlib" TargetFileType.Linkable TargetKind.Lib "t"
    (some [{ suffix := ".rlib", pre := "lib",
             target_file_type := TargetFileType.Linkable,
             should_replace_hyphens := false }]) tiFixAfter 1 rfl

/-- C6: for crate type `dylib` on triple `x86_64-pc-windows-msvc` with base
suffix `.dll` and a linkable role passed in, `file_types` returns exactly the
base descriptor and the import-library descriptor, the latter with
suffix = base suffix + `.lib` and role `Normal`. -/
theorem file_types_msvc_import_library (ti : TargetInfo) (p : String)
    (h : List.lookup "dylib" ti.crate_types = some (some (p, ".dll"))) :
    ti.file_types "dylib" TargetFileType.Linkable TargetKind.Lib
        "x86_64-pc-windows-msvc" =
      .ok (some [{ suffix := ".dll", pre := p,
                   target_file_type := TargetFileType.Linkable,
                   should_replace_hyphens := false },
                 { suffix := ".dll.lib", pre := p,
                   target_file_type := TargetFileType.Normal,
                   should_replace_hyphens := false }], ti, 0) := by
  unfold TargetInfo.file_types
  rw [TargetInfo.resolveCrateType_cached ti "dylib" (some (p, ".dll")) h]
  rfl

/-- Witness for C6 in the concrete state `tiFix`. -/
theorem file_types_msvc_import_library_witness :
    TargetInfo.file_types tiFix "dylib" TargetFileType.Linkable TargetKind.Lib
        "x86_64-pc-windows-msvc" =
      .ok (some [{ suffix := ".dll", pre := "",
                   target_file_type := TargetFileType.Linkable,
                   should_replace_hyphens := false },
                 { suffix := ".dll.lib", pre := "",
                   target_file_type := TargetFileType.Normal,
                   should_replace_hyphens := false }], tiFix, 0) :=
  file_types_msvc_import_library tiFix "" rfl

/-- C7: for crate type `bin` on triple `wasm32-unknown-unknown` with base
suffix `.js`, `file_types` returns exactly the base descriptor (with the role
passed in) followed by the companion binary descriptor `(.wasm, Normal)`,
which is the only descriptor with the hyphen-rewrite flag set — for every
artifact role and target kind. -/
theorem file_types_wasm_companion (ti : TargetInfo) (p : String)
    (ft : TargetFileType) (k : TargetKind)
    (h : List.lookup "bin" ti.crate_types = some (some (p, ".js"))) :
    ti.file_types "bin" ft k "wasm32-unknown-unknown" =
      .ok (some [{ suffix := ".js", pre := p, target_file_type := ft,
                   should_replace_hyphens := false },
                 { suffix := ".wasm", pre := p,
                   target_file_type := TargetFileType.Normal,
                   should_replace_hyphens := true }], ti, 0) := by
  unfold TargetInfo.file_types
  rw [TargetInfo.resolveCrateType_cached ti "bin" (some (p, ".js")) h]
  cases k <;> rfl

/-- Witness for C7 in the concrete state `tiFix`. -/
theorem file_types_wasm_companion_witness :
    TargetInfo.file_types tiFix "bin" TargetFileType.Normal TargetKind.Bin
        "wasm32-unknown-unknown" =
      .ok (some [{ suffix := ".js", pre := "",
                   target_file_type := TargetFileType.Normal,
                   should_replace_hyphens := false },
                 { suffix := ".wasm", pre := "",
                   target_file_type := TargetFileType.Normal,
                   should_replace_hyphens := true }], tiFix, 0) :=
  file_types_wasm_companion tiFix "" TargetFileType.Normal TargetKind.Bin rfl

/-- C8: for crate type `staticlib` (whose target kind is `Lib`), on every
target triple, with every resolved prefix/suffix and every artifact role
passed in, `file_types` returns exactly the one base descriptor: none of the
platform-specific expansions applies. -/
theorem file_types_staticlib_single (ti : TargetInfo) (p s tt : String)
    (ft : TargetFileType)
    (h : List.lookup "staticlib" ti.crate_types = some (some (p, s))) :
    ti.file_types "staticlib" ft TargetKind.Lib tt =
      .ok (some [{ suffix := s, pre := p, target_file_type := ft,
                   should_replace_hyphens := false }], ti, 0) := by
  unfold TargetInfo.file_types
  rw [TargetInfo.resolveCrateType_cached ti "staticlib" (some (p, s)) h]
  have e1 : strEndsWith "staticlib" "dylib" = false := rfl
  have e2 : ("staticlib" == "bin") = false := rfl
  have e3 : (TargetKind.Lib == TargetKind.Bin) = false := rfl
  simp [e1, e2, e3]

/-- Witness for C8 in the concrete state `tiFix` on an Apple triple. -/
theorem file_types_staticlib_single_witness :
    TargetInfo.file_types tiFix "staticlib" TargetFileType.Linkable
        TargetKind.Lib "x86_64-apple-darwin" =
      .ok (some [{ suffix := ".a", pre := "lib",
                   target_file_type := TargetFileType.Linkable,
                   should_replace_hyphens := false }], tiFix, 0) :=
  file_types_staticlib_single tiFix "lib" ".a" "x86_64-apple-darwin"
    TargetFileType.Linkable rfl

/-- C2: when stderr carries an unsupported/unknown-crate-type marker naming
kind `K`, parsing yields `none` for `K` without consuming a stdout line, and
the resolution of every other requested kind in the same probe is unaffected:
running the probe loop with `K` spliced in anywhere equals running it without
`K` and inserting `(K, none)` at that position, with the same line cursor. -/
theorem parse_crate_type_unsupported_no_shift (ts₁ ts₂ : List String)
    (K : String) (err lines : List String) (h : not_supported err K = true) :
    parse_crate_type K err lines = .ok (none, lines) ∧
    parseCrateTypes (ts₁ ++ K :: ts₂) err lines =
      Except.map
        (fun r => (r.1.take ts₁.length ++ (K, none) :: r.1.drop ts₁.length, r.2))
        (parseCrateTypes (ts₁ ++ ts₂) err lines) := by
  refine ⟨parse_crate_type_of_not_supported K err lines h, ?_⟩
  induction ts₁ generalizing lines with
  | nil =>
    simp only [List.nil_append, List.length_nil, List.take_zero, List.drop_zero]
    rw [parseCrateTypes]
    rw [parse_crate_type_of_not_supported K err lines h]
    dsimp only
    cases hrec : parseCrateTypes ts₂ err lines with
    | error e => rfl
    | ok mr => obtain ⟨m, rest2⟩ := mr; rfl
  | cons t ts₁ ih =>
    simp only [List.cons_append, List.length_cons]
    rw [parseCrateTypes, parseCrateTypes]
    cases hp : parse_crate_type t err lines with
    | error e => rfl
    | ok pr =>
      obtain ⟨out, rest⟩ := pr
      dsimp only
      rw [ih rest]
      cases hrec : parseCrateTypes (ts₁ ++ ts₂) err rest with
      | error e => rfl
      | ok mr =>
        obtain ⟨m, rest2⟩ := mr
        simp [Except.map, List.take_succ_cons, List.drop_succ_cons]

/-- Witness for C2: `dylib` marked unsupported between `bin` and
`staticlib`; the other two kinds resolve to the same values either way. -/
theorem parse_crate_type_unsupported_no_shift_witness :
    parse_crate_type "dylib" ["error: unsupported crate type dylib for target"]
        ["___.bin", "lib___.a"] =
      .ok (none, ["___.bin", "lib___.a"]) ∧
    parseCrateTypes ["bin", "dylib", "staticlib"]
        ["error: unsupported crate type dylib for target"]
        ["___.bin", "lib___.a"] =
      Except.map
        (fun r => (r.1.take 1 ++ ("dylib", none) :: r.1.drop 1, r.2))
        (parseCrateTypes ["bin", "staticlib"]
          ["error: unsupported crate type dylib for target"]
          ["___.bin", "lib___.a"]) :=
  parse_crate_type_unsupported_no_shift ["bin"] ["staticlib"] "dylib"
    ["error: unsupported crate type dylib for target"]
    ["___.bin", "lib___.a"] rfl

/-- C3: for a stdout line consumed for a supported kind, splitting the
trimmed line on the sentinel `___` is asymmetric: fewer than two parts is a
fatal parse error, while more than two parts is accepted, taking only the
first two as (prefix, suffix). -/
theorem parse_crate_type_split_asymmetry (K : String) (err : List String)
    (line : String) (rest : List String) (h : not_supported err K = false) :
    ((strSplitOn (strTrim line) "___").length < 2 →
      parse_crate_type K err (line :: rest) =
        .error ("output of --print=file-names has changed in "
          ++ "the compiler, cannot parse")) ∧
    (∀ p s more, strSplitOn (strTrim line) "___" = p :: s :: more →
      parse_crate_type K err (line :: rest) = .ok (some (p, s), rest)) := by
  unfold parse_crate_type
  rw [h]
  constructor
  · intro hlen
    cases hsp : strSplitOn (strTrim line) "___" with
    | nil => simp [hsp]
    | cons p tail =>
      cases tail with
      | nil => simp [hsp]
      | cons s more => rw [hsp] at hlen; simp at hlen; omega
  · intro p s more hsp
    simp [hsp]

/-- Witness for C3 on a three-part line: only the first two parts are kept. -/
theorem parse_crate_type_split_asymmetry_witness :
    ((strSplitOn (strTrim "lib___.rlib___x") "___").length < 2 →
      parse_crate_type "rlib" [] ["lib___.rlib___x"] =
        .error ("output of --print=file-names has changed in "
          ++ "the compiler, cannot parse")) ∧
    (∀ p s more, strSplitOn (strTrim "lib___.rlib___x") "___" = p :: s :: more →
      parse_crate_type "rlib" [] ["lib___.rlib___x"] = .ok (some (p, s), [])) :=
  parse_crate_type_split_asymmetry "rlib" [] "lib___.rlib___x" [] rfl

/-- C5: if the combined probe's invocation fails but the fallback
file-name-only probe succeeds (its naming lines parse), the instance is
constructed successfully with `cfg()` absent and the sysroot library
directory absent, while all requested output kinds still resolve from the
fallback output (the cache is exactly the fallback parse result, keyed by
every known crate type). -/
theorem new_fallback_probe (rustc : RustcProbe) (kind : Kind)
    (target_triple : String) (hostWindows : Bool)
    (cfgFromStr : String → Except String Cfg) (out : ProcOutput)
    (m : List (String × Option (String × String))) (rest : List String)
    (h1 : rustc.withCfgOutput = .error ())
    (h2 : rustc.plainOutput = .ok out)
    (h3 : parseCrateTypes KNOWN_CRATE_TYPES out.stderr out.stdout = .ok (m, rest)) :
    TargetInfo.new rustc kind target_triple hostWindows cfgFromStr =
      .ok { crate_type_process := some rustc.crateTypeOutput
            crate_types := m, cfg := none, sysroot_libdir := none } ∧
    TargetInfo.cfgAccessor { crate_type_process := some rustc.crateTypeOutput
                             crate_types := m, cfg := none,
                             sysroot_libdir := none } = none ∧
    m.map Prod.fst = KNOWN_CRATE_TYPES := by
  refine ⟨?_, rfl, parseCrateTypes_keys _ _ _ _ _ h3⟩
  unfold TargetInfo.new
  rw [h1]
  dsimp only
  rw [h2]
  dsimp only
  rw [h3]
  rfl

/-- Witness for C5 on the concrete fallback fixture. -/
theorem new_fallback_probe_witness :
    TargetInfo.new rustcFallbackFix Kind.Target "t" false cfgFromStrFix =
      .ok { crate_type_process := some rustcFallbackFix.crateTypeOutput
            crate_types := mFix, cfg := none, sysroot_libdir := none } ∧
    TargetInfo.cfgAccessor { crate_type_process := some rustcFallbackFix.crateTypeOutput
                             crate_types := mFix, cfg := none,
                             sysroot_libdir := none } = none ∧
    mFix.map Prod.fst = KNOWN_CRATE_TYPES :=
  new_fallback_probe rustcFallbackFix Kind.Target "t" false cfgFromStrFix
    ⟨["___.bin", "lib___.rlib", "___.dll", "___.cdll", "lib___.a", "lib___.so"], []⟩
    mFix [] rfl rfl rfl

/-- C9: when the combined probe succeeds, the sysroot library directory is
the reported sysroot line extended with `lib`, `rustlib`, the target triple
and `lib` for a cross target, and with `bin` (Windows host) or `lib`
(otherwise) for the host. -/
theorem new_combined_sysroot (rustc : RustcProbe) (kind : Kind)
    (target_triple : String) (hostWindows : Bool)
    (cfgFromStr : String → Except String Cfg) (out : ProcOutput)
    (m : List (String × Option (String × String))) (line : String)
    (rest : List String) (cfgs : List Cfg)
    (h1 : rustc.withCfgOutput = .ok out)
    (h3 : parseCrateTypes KNOWN_CRATE_TYPES out.stderr out.stdout =
      .ok (m, line :: rest))
    (h4 : rest.mapM cfgFromStr = .ok cfgs) :
    TargetInfo.new rustc kind target_triple hostWindows cfgFromStr =
      .ok { crate_type_process := some rustc.crateTypeOutput
            crate_types := m, cfg := some cfgs
            sysroot_libdir := some
              (if kind == Kind.Host then
                (if hostWindows then [line, "bin"] else [line, "lib"])
              else [line, "lib", "rustlib", target_triple, "lib"]) } := by
  unfold TargetInfo.new
  rw [h1]
  dsimp only
  rw [h3]
  dsimp only
  rw [h4]
  cases kind <;> cases hostWindows <;> rfl

/-- Witness for C9 on the concrete combined fixture, cross target. -/
theorem new_combined_sysroot_witness :
    TargetInfo.new rustcCombinedFix Kind.Target "armv7-unknown-linux-gnueabihf"
        false cfgFromStrFix =
      .ok { crate_type_process := some rustcCombinedFix.crateTypeOutput
            crate_types := mFix, cfg := some [{ name := "unix", value := none }]
            sysroot_libdir := some
              ["/sysroot", "lib", "rustlib", "armv7-unknown-linux-gnueabihf",
               "lib"] } :=
  new_combined_sysroot rustcCombinedFix Kind.Target
    "armv7-unknown-linux-gnueabihf" false cfgFromStrFix
    ⟨["___.bin", "lib___.rlib", "___.dll", "___.cdll", "lib___.a", "lib___.so",
      "/sysroot", "unix"], []⟩
    mFix "/sysroot" ["unix"] [{ name := "unix", value := none }] rfl rfl rfl

/-- C10: every descriptor list returned by `file_types` carries at most one
appended debug-information descriptor (and, for every non-debug role passed
in, at most one debug-information descriptor overall): the Apple `.dSYM`
branch and the MSVC `.pdb` branch sit in mutually exclusive arms of one
if/else-if, and on a triple matching both patterns only the `.dSYM`
descriptor is appended — the Apple branch takes precedence. -/
theorem file_types_at_most_one_debuginfo (ti : TargetInfo) (ct : String)
    (ft : TargetFileType) (k : TargetKind) (tt : String)
    (l : List FileType) (ti2 : TargetInfo) (n : Nat)
    (h : ti.file_types ct ft k tt = .ok (some l, ti2, n)) :
    (List.drop 1 l).countP
        (fun f => f.target_file_type == TargetFileType.DebugInfo) ≤ 1 ∧
    (ft ≠ TargetFileType.DebugInfo →
      l.countP (fun f => f.target_file_type == TargetFileType.DebugInfo) ≤ 1) ∧
    (strContains tt "-apple-" = true → strEndsWith tt "-msvc" = true →
      (∀ f ∈ List.drop 1 l, f.suffix ≠ ".pdb") ∧
      (k = TargetKind.Bin →
        ∃ q, ({ suffix := ".dSYM", pre := q,
                target_file_type := TargetFileType.DebugInfo,
                should_replace_hyphens := false } : FileType) ∈ l)) := by
  unfold TargetInfo.file_types at h
  split at h
  · exact Except.noConfusion h
  · split at h
    · simp at h
    · rename_i info tiR nR p s hinfo
      dsimp only at h
      simp only [Except.ok.injEq, Prod.mk.injEq, Option.some.injEq] at h
      obtain ⟨hl, -, -⟩ := h
      subst hl
      have d1 : (TargetFileType.DebugInfo == TargetFileType.DebugInfo) = true := rfl
      have d2 : (TargetFileType.Normal == TargetFileType.DebugInfo) = false := rfl
      refine ⟨?_, ?_, ?_⟩
      · repeat' split
        all_goals simp [List.countP_cons, List.countP_append, d1, d2]
      · intro hft
        have hft' : (ft == TargetFileType.DebugInfo) = false := by
          cases ft <;> first | rfl | simp_all
        repeat' split
        all_goals simp [List.countP_cons, List.countP_append, d1, d2, hft']
      · intro happle hmsvc
        constructor
        · repeat' split
          all_goals simp_all
        · intro hk
          subst hk
          have hbin : (TargetKind.Bin == TargetKind.Bin) = true := rfl
          repeat' split
          all_goals simp_all

/-- Witness for C10 on a hypothetical triple matching both the Apple and the
MSVC pattern: only the `.dSYM` descriptor is appended. -/
theorem file_types_at_most_one_debuginfo_witness :
    (List.drop 1
        [({ suffix := ".js", pre := "", target_file_type := TargetFileType.Normal,
            should_replace_hyphens := false } : FileType),
         { suffix := ".dSYM", pre := "",
           target_file_type := TargetFileType.DebugInfo,
           should_replace_hyphens := false }]).countP
        (fun f => f.target_file_type == TargetFileType.DebugInfo) ≤ 1 ∧
    (TargetFileType.Normal ≠ TargetFileType.DebugInfo →
      ([({ suffix := ".js", pre := "", target_file_type := TargetFileType.Normal,
           should_replace_hyphens := false } : FileType),
        { suffix := ".dSYM", pre := "",
          target_file_type := TargetFileType.DebugInfo,
          should_replace_hyphens := false }]).countP
        (fun f => f.target_file_type == TargetFileType.DebugInfo) ≤ 1) ∧
    (strContains "x86_64-apple-msvc" "-apple-" = true →
      strEndsWith "x86_64-apple-msvc" "-msvc" = true →
      (∀ f ∈ List.drop 1
          [({ suffix := ".js", pre := "",
              target_file_type := TargetFileType.Normal,
              should_replace_hyphens := false } : FileType),
           { suffix := ".dSYM", pre := "",
             target_file_type := TargetFileType.DebugInfo,
             should_replace_hyphens := false }], f.suffix ≠ ".pdb") ∧
      (TargetKind.Bin = TargetKind.Bin →
        ∃ q, ({ suffix := ".dSYM", pre := q,
                target_file_type := TargetFileType.DebugInfo,
                should_replace_hyphens := false } : FileType) ∈
          [({ suffix := ".js", pre := "",
              target_file_type := TargetFileType.Normal,
              should_replace_hyphens := false } : FileType),
           { suffix := ".dSYM", pre := "",
             target_file_type := TargetFileType.DebugInfo,
             should_replace_hyphens := false }])) :=
  file_types_at_most_one_debuginfo tiFix "bin" TargetFileType.Normal
    TargetKind.Bin "x86_64-apple-msvc"
    [{ suffix := ".js", pre := "", target_file_type := TargetFileType.Normal,
       should_replace_hyphens := false },
     { suffix := ".dSYM", pre := "",
       target_file_type := TargetFileType.DebugInfo,
       should_replace_hyphens := false }] tiFix 0 rfl
